import Mathlib

/-!
Verification of the `internet_monitor` repository: a shallow embedding of
the monitor's main loop (`internet_monitor.py`), its duration formatter
(`format_time`), and the status-freshness logic of the log viewer
(`log_viewer.py`), together with theorems checking the specification's
claims about them.

Modelling conventions:
* timestamps are integers (seconds); `datetime` subtraction becomes
  integer subtraction;
* latencies are rationals (`float` values parsed from fping output);
* a Python `NameError` / `TypeError` escaping the loop body is modelled by
  `Except.error`;
* each loop iteration consumes a `Sample` describing what the external
  world (fping, DNS) returned in that cycle, and produces the list of
  notification/alert events the iteration emitted.
-/

namespace InternetMonitor

/-- `TRIGGER = 3` in the source: alert after this many misses. -/
def TRIGGER : Nat := 3

/-- Notification/alert events emitted by one loop iteration.  Durations
(in seconds) are carried where the source reports them. -/
inductive Event where
  | lossRecovered (dur : Int)
  | lossTriggered
  | reachTriggered
  | reachRecovered (dur : Int)
  | latencyTriggered
  | dnsTriggered
  | dnsRecovered
  deriving DecidableEq, Repr

/-- Result of one fping invocation, as seen by the parsing code:
either the process failed (`CalledProcessError`) or it succeeded and the
two regex matches each either produced a value or failed to match. -/
inductive ProbeResult where
  /-- `subprocess.CalledProcessError`: fping exited non-zero. -/
  | fail
  /-- fping succeeded; `avg` is the parsed average latency
  (`none` = regex did not match), `loss` the parsed loss percentage
  (`none` = regex did not match). -/
  | ok (avg : Option Rat) (loss : Option Nat)
  deriving DecidableEq, Repr

/-- What the external world supplies to one loop iteration. -/
structure Sample where
  probe : ProbeResult
  /-- result `check_dns()` would return this cycle. -/
  dnsOk : Bool
  /-- the current clock reading, in seconds. -/
  now : Int
  deriving DecidableEq, Repr

/-- The monitor's global mutable variables.  `loss_percentage_time` and
`ping_time` start out unassigned in the source, hence `Option`. -/
structure MState where
  internet_up : Bool
  loss_percentage_count : Nat
  loss_percentage_time : Option Int
  dns_up : Bool
  dns_fail_count : Nat
  ping_fail_count : Nat
  high_latency_count : Nat
  ping_fail_time : Int
  high_latency_time : Int
  notified : Bool
  ping_time : Option Rat
  deriving DecidableEq, Repr

/-- Initial values of the globals (lines 19-82 of `internet_monitor.py`);
`t0` is the process start time used for the two `datetime.now()` seeds. -/
def initState (t0 : Int) : MState where
  internet_up := false
  loss_percentage_count := 0
  loss_percentage_time := none
  dns_up := true
  dns_fail_count := 0
  ping_fail_count := 0
  high_latency_count := 0
  ping_fail_time := t0
  high_latency_time := t0
  notified := false
  ping_time := none

/-- Packet-loss handling, lines 108-136: a parsed loss of `0` emits a
recovery only when the counter equals `TRIGGER` exactly, then resets the
counter; a positive loss increments the counter and (re-)notifies on
every sample once the counter is at least `TRIGGER`.  Reading the
never-assigned `loss_percentage_time` raises `NameError`. -/
def lossUpdate (st : MState) (lossMatch : Option Nat) (now : Int) :
    Except String (MState × List Event) :=
  match lossMatch with
  | none => Except.ok (st, [])
  | some lossPercentage =>
    if lossPercentage = 0 then
      if st.loss_percentage_count = TRIGGER then
        match st.loss_percentage_time with
        | none => Except.error "NameError: loss_percentage_time"
        | some lt =>
          Except.ok ({ st with
                        notified := false
                        loss_percentage_count := 0
                        loss_percentage_time := some now },
                     [Event.lossRecovered (now - lt)])
      else
        Except.ok ({ st with
                      loss_percentage_count := 0
                      loss_percentage_time := some now }, [])
    else
      if TRIGGER ≤ st.loss_percentage_count + 1 then
        Except.ok ({ st with
                      loss_percentage_count := st.loss_percentage_count + 1
                      loss_percentage_time := some now
                      notified := true },
                   [Event.lossTriggered])
      else
        Except.ok ({ st with
                      loss_percentage_count := st.loss_percentage_count + 1
                      loss_percentage_time := some now }, [])

/-- Lines 137-146 (tail of the successful-ping branch): if the failure
counter reached `TRIGGER`, emit the outage-recovered event and clear
`notified`; then unconditionally reset the failure clock and counter and
mark the internet up. -/
def reachRecoverUpdate (st : MState) (now : Int) : MState × List Event :=
  let st1 := if TRIGGER ≤ st.ping_fail_count then { st with notified := false } else st
  let evs := if TRIGGER ≤ st.ping_fail_count then
    [Event.reachRecovered (now - st.ping_fail_time)] else []
  ({ st1 with ping_fail_time := now, ping_fail_count := 0, internet_up := true }, evs)

/-- Lines 148-157 (`except subprocess.CalledProcessError`): count the
miss, record the start time on the first miss, and alert once the count
reaches `TRIGGER` provided `notified` is not already set. -/
def reachFailUpdate (st : MState) (now : Int) : MState × List Event :=
  let st1 := { st with ping_fail_count := st.ping_fail_count + 1, internet_up := false }
  let st2 := if st1.ping_fail_count = 1 then { st1 with ping_fail_time := now } else st1
  if TRIGGER ≤ st2.ping_fail_count ∧ st2.notified = false then
    ({ st2 with notified := true }, [Event.reachTriggered])
  else (st2, [])

/-- Lines 180-191: the DNS check.  The failure counter increments only
when the fresh sample fails while `dns_up` is still true (a falling
edge); the alert fires when the counter is at least `3`; a rising edge
emits the recovery alert under the same counter test and resets the
counter; finally `dns_up` is set to the fresh sample. -/
def dnsUpdate (st : MState) (dnsState : Bool) : MState × List Event :=
  let st1 := if dnsState = false ∧ st.dns_up = true then
    { st with dns_fail_count := st.dns_fail_count + 1 } else st
  let e1 : List Event := if dnsState = false ∧ st.dns_up = true then
    (if 3 ≤ st.dns_fail_count + 1 then [Event.dnsTriggered] else []) else []
  let st2 := if dnsState = true ∧ st1.dns_up = false then
    { st1 with dns_fail_count := 0 } else st1
  let e2 : List Event := if dnsState = true ∧ st1.dns_up = false then
    (if 3 ≤ st1.dns_fail_count then [Event.dnsRecovered] else []) else []
  ({ st2 with dns_up := dnsState }, e1 ++ e2)

/-- Lines 159-191, executed on every iteration: the latency test reads
`ping_time` (a `NameError` if it was never assigned), counts a sample
above 1000 ms as bad and alerts at `TRIGGER` when `notified` is unset;
otherwise, a pending latency recovery crashes (`tz` is applied to a
`str` at line 173), the latency counter resets, and the DNS check runs
only when `internet_up` holds. -/
def latencyDnsUpdate (st : MState) (dnsOk : Bool) (now : Int) :
    Except String (MState × List Event) :=
  match st.ping_time with
  | none => Except.error "NameError: ping_time"
  | some pt =>
    if (1000 : Rat) < pt then
      let st1 := { st with high_latency_count := st.high_latency_count + 1 }
      let st2 := if st1.high_latency_count = 0
                 then { st1 with high_latency_time := now } else st1
      if TRIGGER ≤ st2.high_latency_count ∧ st2.notified = false then
        Except.ok ({ st2 with notified := true }, [Event.latencyTriggered])
      else Except.ok (st2, [])
    else
      if TRIGGER ≤ st.high_latency_count then
        Except.error "TypeError: tz applied to str"
      else
        let st1 := { st with high_latency_count := 0, high_latency_time := now }
        if st1.internet_up = true then Except.ok (dnsUpdate st1 dnsOk)
        else Except.ok (st1, [])

/-- Lines 100-107: the parsed average latency, or the sentinel `99999`
when the regex found no match. -/
def parsedPing (avg : Option Rat) : Rat :=
  match avg with
  | some v => v
  | none => 99999

/-- One iteration of the `while True` loop (lines 93-191).  On a
successful probe `ping_time` is set (to the sentinel `99999` on a parse
failure), then loss, outage-recovery, latency and DNS handling run in
source order; on `CalledProcessError` only the failure branch runs
before the latency test (`ping_time` keeps its previous value). -/
def step (st : MState) (s : Sample) : Except String (MState × List Event) :=
  match s.probe with
  | ProbeResult.ok avg loss =>
    let st1 := { st with ping_time := some (parsedPing avg) }
    match lossUpdate st1 loss s.now with
    | Except.error e => Except.error e
    | Except.ok (st2, e1) =>
      let (st3, e2) := reachRecoverUpdate st2 s.now
      match latencyDnsUpdate st3 s.dnsOk s.now with
      | Except.error e => Except.error e
      | Except.ok (st4, e3) => Except.ok (st4, e1 ++ e2 ++ e3)
  | ProbeResult.fail =>
    let (st1, e1) := reachFailUpdate st s.now
    match latencyDnsUpdate st1 s.dnsOk s.now with
    | Except.error e => Except.error e
    | Except.ok (st2, e2) => Except.ok (st2, e1 ++ e2)

/-- Run the loop over a list of samples, collecting each iteration's
events; stops with `Except.error` on the first uncaught exception. -/
def runE (st : MState) : List Sample → Except String (MState × List (List Event))
  | [] => Except.ok (st, [])
  | s :: rest =>
    match step st s with
    | Except.error e => Except.error e
    | Except.ok (st', evs) =>
      match runE st' rest with
      | Except.error e => Except.error e
      | Except.ok (st'', evss) => Except.ok (st'', evs :: evss)

/-- A fully healthy sample: probe succeeds, latency `l` parsed, 0 % loss
parsed, DNS resolves. -/
def goodS (l : Rat) (t : Int) : Sample := ⟨ProbeResult.ok (some l) (some 0), true, t⟩

/-- A down sample: fping exits non-zero. -/
def downS (t : Int) : Sample := ⟨ProbeResult.fail, true, t⟩

/-- A reachable sample with latency 50 ms and parsed loss `lp` %. -/
def lossS (lp : Nat) (t : Int) : Sample := ⟨ProbeResult.ok (some 50) (some lp), true, t⟩

/-- A reachable sample whose latency regex failed to match
(`ping_time` becomes the sentinel `99999`). -/
def unknownLatencyS (t : Int) : Sample := ⟨ProbeResult.ok none (some 0), true, t⟩

/-- A reachable, low-latency, 0 %-loss sample whose DNS check fails. -/
def dnsFailS (t : Int) : Sample := ⟨ProbeResult.ok (some 50) (some 0), false, t⟩

/-- Boolean discriminator for loss-recovery events. -/
def isLossRecovered : Event → Bool
  | Event.lossRecovered _ => true
  | _ => false

/-- Reachability-only sample sequences: each element is a cycle time and
whether the probe fails in that cycle; good cycles carry latency `l`,
0 % loss and healthy DNS. -/
def reachSeq (l : Rat) : List (Int × Bool) → List Sample :=
  List.map fun p => if p.2 then downS p.1 else goodS l p.1

/-- Length of the trailing run of failing cycles. -/
def trailRun : List (Int × Bool) → Nat :=
  List.foldl (fun a p => if p.2 then a + 1 else 0) 0

/-- Invariant maintained along a reachability-only sequence whose good
cycles are benign (latency ≤ 1000, 0 % loss, DNS up): all other signals
stay quiescent, `ping_fail_count` is the current run of failures, and
`notified` is set exactly when that run reached `TRIGGER`. -/
def ReachInv (l : Rat) (st : MState) (k : Nat) : Prop :=
  st.ping_time = some l ∧ st.loss_percentage_count = 0 ∧ st.high_latency_count = 0 ∧
  st.dns_up = true ∧ st.dns_fail_count = 0 ∧ st.ping_fail_count = k ∧
  st.notified = decide (TRIGGER ≤ k)

/-- Python's `", ".join`. -/
def joinParts : List String → String
  | [] => ""
  | [p] => p
  | p :: q :: rest => p ++ ", " ++ joinParts (q :: rest)

/-- One `f"{x} {unit}"` entry of the `time_parts` list, with the unit
name singular exactly for magnitude 1. -/
def unitPart (x : Nat) (sing plur : String) : String :=
  toString x ++ " " ++ (if x = 1 then sing else plur)

/-- The hour and minute entries of `time_parts`: each appended only when
its magnitude is non-zero. -/
def hourMinParts (hours minutes : Nat) : List String :=
  (if 0 < hours then [unitPart hours "hour" "hours"] else []) ++
    (if 0 < minutes then [unitPart minutes "minute" "minutes"] else [])

/-- The full `time_parts` list built by `format_time` (lines 59-74):
hours and minutes appear when non-zero, seconds when non-zero or when
nothing else was appended (`if seconds > 0 or not time_parts`).
`timedelta(seconds=s).seconds` is the sub-day component `s % 86400`. -/
def formatTimeParts (s : Nat) : List String :=
  let tdSeconds := s % 86400
  let hours := tdSeconds / 3600
  let remainder := tdSeconds % 3600
  let minutes := remainder / 60
  let seconds := remainder % 60
  hourMinParts hours minutes ++
    (if 0 < seconds ∨ hourMinParts hours minutes = [] then
      [unitPart seconds "second" "seconds"] else [])

/-- `format_time` from `internet_monitor.py`. -/
def formatTime (s : Nat) : String := joinParts (formatTimeParts s)

/-- `_format_status` from `log_viewer.py`, restricted to the `state`
field of the dict it builds: lowercase the stored state and map anything
unrecognised (including the empty string) to `"unknown"`. -/
def formatState (s : String) : String :=
  let t := s.toLower
  if t = "up" then "up"
  else if t = "down" then "down"
  else if t = "warning" then "warning"
  else "unknown"

/-- `_status_is_fresh` from `log_viewer.py`.  `ts` is the parse result
of the snapshot's timestamp string (`none` = missing/empty or
unparseable), `now` the current clock; a non-positive `maxAge` disables
the check before the timestamp is even looked at. -/
def statusIsFresh (maxAge : Int) (ts : Option Int) (now : Int) : Bool :=
  if maxAge ≤ 0 then true
  else
    match ts with
    | none => false
    | some t => decide (0 ≤ now - t ∧ now - t ≤ maxAge)

/-- `load_status` from `log_viewer.py`: `snap = none` models a missing,
unreadable or non-object snapshot file; otherwise the snapshot carries
its parsed timestamp and the two stored state strings.  A stale or
unparseable timestamp forces both reported states to `"unknown"`. -/
def load_status (maxAge : Int) (snap : Option (Option Int × String × String))
    (now : Int) : String × String :=
  match snap with
  | none => ("unknown", "unknown")
  | some (ts, internetState, dnsState) =>
    if statusIsFresh maxAge ts now then
      (formatState internetState, formatState dnsState)
    else ("unknown", "unknown")

/-! ### Helper lemmas about `format_time` -/

lemma unitPart_ne_empty (x : Nat) (sing plur : String) :
    unitPart x sing plur ≠ "" := by
  intro hc
  have hlen := congrArg String.length hc
  rw [unitPart, String.length_append, String.length_append] at hlen
  have h1 : (" ").length = 1 := rfl
  have h0 : ("" : String).length = 0 := rfl
  omega

lemma append_ne_empty_left (s t : String) (hs : s ≠ "") : s ++ t ≠ "" := by
  intro hc
  apply hs
  have hlen := congrArg String.length hc
  rw [String.length_append] at hlen
  have h0 : ("" : String).length = 0 := rfl
  have : s.length = 0 := by omega
  exact String.ext (by simpa [String.length] using List.length_eq_zero.mp this)

lemma joinParts_cons_ne_empty (p : String) (ps : List String) (hp : p ≠ "") :
    joinParts (p :: ps) ≠ "" := by
  cases ps with
  | nil => simpa [joinParts] using hp
  | cons q qs =>
    show p ++ ", " ++ joinParts (q :: qs) ≠ ""
    exact append_ne_empty_left _ _ (append_ne_empty_left _ _ hp)

lemma formatTime_ne_empty (n : Nat) : formatTime n ≠ "" := by
  rw [formatTime, formatTimeParts]
  by_cases h1 : 0 < n % 86400 / 3600 <;>
    by_cases h2 : 0 < n % 86400 % 3600 / 60 <;>
      by_cases h3 : 0 < n % 86400 % 3600 % 60 <;>
        simp only [hourMinParts, h1, h2, h3, if_pos, if_neg, if_true, if_false,
          List.append_nil, List.nil_append, List.append_assoc, List.cons_append,
          not_false_iff, List.singleton_append, or_true, or_false, true_or,
          false_or, List.cons_ne_nil, not_true, reduceIte] <;>
        exact joinParts_cons_ne_empty _ _ (unitPart_ne_empty _ _ _)

/-! ### Claims C9 and C10: `format_time` rendering -/

/-- **C9 (counterexample).** The claim that the rendering "always shows
at least the seconds part" fails: `format_time(3600)` renders as
`"1 hour"`, whose parts list contains no seconds entry at all (the
seconds part is skipped because the seconds component is zero and the
parts list is already non-empty). -/
theorem format_time_3600_no_seconds_cex :
    formatTime 3600 = "1 hour" ∧ formatTimeParts 3600 = ["1 hour"] :=
  ⟨rfl, rfl⟩

/-- **C9 (amended).** `format_time(3661) = "1 hour, 1 minute, 1 second"`
and `format_time(0) = "0 seconds"`; zero-valued higher units are
omitted; unit names are singular exactly for magnitude 1 (`"1 second"`
vs `"2 minutes"`); the result is never the empty string.  The seconds
part, however, is shown only when the seconds component is non-zero or
every other part is absent: `format_time(3600) = "1 hour"`. -/
theorem format_time_rendering :
    formatTime 3661 = "1 hour, 1 minute, 1 second" ∧
    formatTime 0 = "0 seconds" ∧
    formatTime 3600 = "1 hour" ∧
    formatTime 61 = "1 minute, 1 second" ∧
    formatTime 120 = "2 minutes" ∧
    formatTime 7322 = "2 hours, 2 minutes, 2 seconds" ∧
    ∀ n : Nat, formatTime n ≠ "" :=
  ⟨rfl, rfl, rfl, rfl, rfl, rfl, formatTime_ne_empty⟩

/-- **C10 (confirmed).** `format_time` reads only
`timedelta(seconds=s).seconds`, the sub-day component, so any whole days
in the duration are silently dropped: the rendering depends only on
`s % 86400`, `format_time(86400) = "0 seconds"` and
`format_time(90061) = "1 hour, 1 minute, 1 second"`. -/
theorem format_time_wraps_at_one_day :
    (∀ s : Nat, formatTime s = formatTime (s % 86400)) ∧
    formatTime 86400 = "0 seconds" ∧
    formatTime 90061 = "1 hour, 1 minute, 1 second" := by
  refine ⟨fun s => ?_, rfl, rfl⟩
  rw [formatTime, formatTime, formatTimeParts, formatTimeParts,
    Nat.mod_mod_of_dvd s dvd_rfl]

/-! ### Closed counterexample runs and the crash claim -/

/-- **C2 (counterexample).** Signal notifications are not independent:
the `notified` flag is shared.  Starting from the initial state, one
healthy sample with 2000 ms latency followed by three down samples makes
the latency signal trigger on the 3rd cycle (the stale `ping_time` keeps
being counted), which sets the shared `notified` flag, so on the 4th
cycle — the 3rd consecutive down sample — no reachability `Triggered`
event fires at all. -/
theorem shared_notified_flag_cex :
    (runE (initState 0) [goodS 2000 0, downS 1, downS 2, downS 3]).map
        (fun p => (p.1.ping_fail_count, p.1.notified, p.2)) =
      Except.ok (3, true, [[], [], [Event.latencyTriggered], []]) := rfl

/-- **C3 (counterexample).** A cycle whose latency cannot be parsed does
not leave the latency hysteresis counter unchanged: from the initial
state (counter 0), one reachable sample with an unparseable latency sets
`ping_time` to the sentinel `99999`, which is counted as a bad sample,
leaving the counter at 1. -/
theorem unknown_latency_counts_cex :
    (initState 0).high_latency_count = 0 ∧
    (runE (initState 0) [unknownLatencyS 0]).map
        (fun p => p.1.high_latency_count) = Except.ok 1 :=
  ⟨rfl, rfl⟩

/-- **C4 (code bug).** The loop does not survive every sample sequence:
(a) if the very first probe fails, the latency test at line 159 reads
the never-assigned `ping_time` and the process dies with a `NameError`;
(b) a latency recovery cycle (three high-latency samples, then a good
one) dies at line 173, where the formatted time string is passed to
`tz`, which expects a datetime. -/
theorem first_cycle_probe_failure_crashes :
    (∀ t0 t : Int, runE (initState t0) [⟨ProbeResult.fail, true, t⟩] =
      Except.error "NameError: ping_time") ∧
    runE (initState 0) [goodS 2000 0, goodS 2000 1, goodS 2000 2, goodS 50 3] =
      Except.error "TypeError: tz applied to str" :=
  ⟨fun _ _ => rfl, rfl⟩

/-- **C5 (counterexample).** A run of more than `trigger_threshold`
consecutive bad packet-loss samples produces *no* recovery event on the
good sample that ends it: after four samples with 30 % loss the counter
is 4, and the recovery branch (line 113) tests `== TRIGGER`, so the
following two 0 %-loss samples emit nothing — zero `Recovered` events
for a completed Alerted-to-Healthy transition (the trigger also re-fired
on the 4th bad sample). -/
theorem long_loss_run_no_recovery_cex :
    (runE (initState 0)
        [lossS 30 0, lossS 30 1, lossS 30 2, lossS 30 3, lossS 0 4, lossS 0 5]).map
        (fun p => p.2) =
      Except.ok [[], [], [Event.lossTriggered], [Event.lossTriggered], [], []] := rfl

/-- **C7 (counterexample).** Latency *is* evaluated in a cycle whose
sample is Down: after a healthy cycle with 2000 ms latency (counter 1),
a down cycle re-evaluates the stale `ping_time` and moves the latency
counter to 2.  Also, DNS is *not* evaluated on every healthy cycle: in
the first (healthy, high-latency) cycle the failing DNS sample leaves
`dns_fail_count = 0` and `dns_up = true`, because the DNS check is
nested in the low-latency branch. -/
theorem latency_evaluated_while_down_cex :
    (runE (initState 0) [⟨ProbeResult.ok (some 2000) (some 0), false, 0⟩]).map
        (fun p => (p.1.high_latency_count, p.1.dns_fail_count, p.1.dns_up)) =
      Except.ok (1, 0, true) ∧
    (runE (initState 0) [⟨ProbeResult.ok (some 2000) (some 0), false, 0⟩, downS 1]).map
        (fun p => p.1.high_latency_count) = Except.ok 2 :=
  ⟨rfl, rfl⟩

/-! ### Claim C8: viewer staleness rule -/

/-- **C8 (confirmed).** For a readable status snapshot: with
`status_max_age ≤ 0` the staleness check is disabled and the stored
states are reported as stored (classified by `_format_status`, which is
the identity on the valid state strings); with a positive max-age, a
missing/unparseable timestamp, a negative age, or an age above the
max-age forces both reported states to `"unknown"`, while an age within
`[0, max_age]` reports the stored states. -/
theorem viewer_staleness_rule (maxAge now t : Int) (ts : Option Int) (i d : String) :
    (maxAge ≤ 0 →
      load_status maxAge (some (ts, i, d)) now = (formatState i, formatState d)) ∧
    (0 < maxAge →
      load_status maxAge (some (none, i, d)) now = ("unknown", "unknown")) ∧
    (0 < maxAge → (now - t < 0 ∨ maxAge < now - t) →
      load_status maxAge (some (some t, i, d)) now = ("unknown", "unknown")) ∧
    (0 < maxAge → 0 ≤ now - t → now - t ≤ maxAge →
      load_status maxAge (some (some t, i, d)) now = (formatState i, formatState d)) ∧
    formatState "up" = "up" ∧ formatState "down" = "down" ∧
    formatState "warning" = "warning" ∧ formatState "unknown" = "unknown" := by
  refine ⟨fun h0 => ?_, fun hpos => ?_, fun hpos hout => ?_, fun hpos h1 h2 => ?_,
    by with_unfolding_all rfl, by with_unfolding_all rfl,
    by with_unfolding_all rfl, by with_unfolding_all rfl⟩
  · simp [load_status, statusIsFresh, h0]
  · simp [load_status, statusIsFresh, not_le.mpr hpos]
  · have hfresh : statusIsFresh maxAge (some t) now = false := by
      simp only [statusIsFresh, if_neg (not_le.mpr hpos)]
      simp only [decide_eq_false_iff_not, not_and, not_le]
      intro hge
      rcases hout with h | h <;> omega
    simp [load_status, hfresh]
  · have hfresh : statusIsFresh maxAge (some t) now = true := by
      simp only [statusIsFresh, if_neg (not_le.mpr hpos)]
      simp [h1, h2]
    simp [load_status, hfresh]

/-- Witness for `viewer_staleness_rule`: a snapshot stored as
`("up", "down")` with timestamp 0 read at time 100 under a 300-second
max-age is reported as stored; read at time 500 it is reported
`("unknown", "unknown")`; with the check disabled (`max_age = 0`) even an
unparseable timestamp is trusted. -/
theorem viewer_staleness_rule_witness :
    load_status 300 (some (some 0, "up", "down")) 100 = ("up", "down") ∧
    load_status 300 (some (some 0, "up", "down")) 500 = ("unknown", "unknown") ∧
    load_status 0 (some (none, "up", "down")) 100 = ("up", "down") :=
  ⟨by
    have h := (viewer_staleness_rule 300 100 0 (some 0) "up" "down").2.2.2.1
      (by norm_num) (by norm_num) (by norm_num)
    rw [h]; with_unfolding_all rfl,
   by
    have h := (viewer_staleness_rule 300 500 0 (some 0) "up" "down").2.2.1
      (by norm_num) (by norm_num)
    rw [h],
   by
    have h := (viewer_staleness_rule 0 100 0 none "up" "down").1 (by norm_num)
    rw [h]; with_unfolding_all rfl⟩

/-! ### Phase lemmas: frame conditions and event shapes -/

lemma lossUpdate_spec (st : MState) (lp : Option Nat) (now : Int) (st2 : MState)
    (e1 : List Event) (h : lossUpdate st lp now = Except.ok (st2, e1)) :
    st2.internet_up = st.internet_up ∧
    st2.dns_up = st.dns_up ∧ st2.dns_fail_count = st.dns_fail_count ∧
    st2.ping_fail_count = st.ping_fail_count ∧ st2.ping_fail_time = st.ping_fail_time ∧
    st2.high_latency_count = st.high_latency_count ∧ st2.ping_time = st.ping_time ∧
    (∀ e ∈ e1, (∃ d, e = Event.lossRecovered d) ∨ e = Event.lossTriggered) := by
  rcases lp with _ | p
  · simp only [lossUpdate] at h
    simp only [Except.ok.injEq, Prod.mk.injEq] at h
    obtain ⟨rfl, rfl⟩ := h
    simp
  · simp only [lossUpdate] at h
    split_ifs at h with h0 hc hc
    · rcases hlt : st.loss_percentage_time with _ | lt
      · rw [hlt] at h
        simp at h
      · rw [hlt] at h
        simp only [Except.ok.injEq, Prod.mk.injEq] at h
        obtain ⟨rfl, rfl⟩ := h
        simp
    · simp only [Except.ok.injEq, Prod.mk.injEq] at h
      obtain ⟨rfl, rfl⟩ := h
      simp
    · simp only [Except.ok.injEq, Prod.mk.injEq] at h
      obtain ⟨rfl, rfl⟩ := h
      simp
    · simp only [Except.ok.injEq, Prod.mk.injEq] at h
      obtain ⟨rfl, rfl⟩ := h
      simp

lemma lossUpdate_recovered_iff (st : MState) (p : Nat) (now : Int) (st2 : MState)
    (e1 : List Event) (h : lossUpdate st (some p) now = Except.ok (st2, e1)) :
    (e1.any isLossRecovered = true ↔
      p = 0 ∧ st.loss_percentage_count = TRIGGER) := by
  simp only [lossUpdate] at h
  split_ifs at h with h0 hc hc
  · rcases hlt : st.loss_percentage_time with _ | lt
    · rw [hlt] at h
      simp at h
    · rw [hlt] at h
      simp only [Except.ok.injEq, Prod.mk.injEq] at h
      obtain ⟨rfl, rfl⟩ := h
      simp [h0, hc, isLossRecovered]
  · simp only [Except.ok.injEq, Prod.mk.injEq] at h
    obtain ⟨rfl, rfl⟩ := h
    simp [h0, hc, isLossRecovered]
  · simp only [Except.ok.injEq, Prod.mk.injEq] at h
    obtain ⟨rfl, rfl⟩ := h
    simp [h0, isLossRecovered]
  · simp only [Except.ok.injEq, Prod.mk.injEq] at h
    obtain ⟨rfl, rfl⟩ := h
    simp [h0, isLossRecovered]

lemma reachRecoverUpdate_spec (st : MState) (now : Int) :
    reachRecoverUpdate st now =
      ({ st with
          notified := if TRIGGER ≤ st.ping_fail_count then false else st.notified
          ping_fail_time := now
          ping_fail_count := 0
          internet_up := true },
       if TRIGGER ≤ st.ping_fail_count then
         [Event.reachRecovered (now - st.ping_fail_time)]
       else []) := by
  by_cases h : TRIGGER ≤ st.ping_fail_count <;> simp [reachRecoverUpdate, h]

lemma reachFailUpdate_spec (st : MState) (now : Int) :
    (reachFailUpdate st now).1.internet_up = false ∧
    (reachFailUpdate st now).1.ping_fail_count = st.ping_fail_count + 1 ∧
    (reachFailUpdate st now).1.dns_up = st.dns_up ∧
    (reachFailUpdate st now).1.dns_fail_count = st.dns_fail_count ∧
    (reachFailUpdate st now).1.high_latency_count = st.high_latency_count ∧
    (reachFailUpdate st now).1.ping_time = st.ping_time ∧
    (reachFailUpdate st now).1.loss_percentage_count = st.loss_percentage_count ∧
    (reachFailUpdate st now).1.loss_percentage_time = st.loss_percentage_time ∧
    ((reachFailUpdate st now).2 = [] ∨ (reachFailUpdate st now).2 = [Event.reachTriggered]) := by
  simp only [reachFailUpdate]
  split_ifs <;> simp

lemma dnsUpdate_spec (st : MState) (d : Bool) :
    (dnsUpdate st d).1.internet_up = st.internet_up ∧
    (dnsUpdate st d).1.ping_fail_count = st.ping_fail_count ∧
    (dnsUpdate st d).1.ping_fail_time = st.ping_fail_time ∧
    (dnsUpdate st d).1.high_latency_count = st.high_latency_count ∧
    (dnsUpdate st d).1.high_latency_time = st.high_latency_time ∧
    (dnsUpdate st d).1.ping_time = st.ping_time ∧
    (dnsUpdate st d).1.notified = st.notified ∧
    (dnsUpdate st d).1.loss_percentage_count = st.loss_percentage_count ∧
    (dnsUpdate st d).1.loss_percentage_time = st.loss_percentage_time ∧
    (∀ e ∈ (dnsUpdate st d).2, e = Event.dnsTriggered ∨ e = Event.dnsRecovered) := by
  simp only [dnsUpdate]
  split_ifs <;> simp

lemma dnsUpdate_inv (st : MState) (d : Bool)
    (h1 : st.dns_up = true → st.dns_fail_count = 0) (h2 : st.dns_fail_count ≤ 1) :
    ((dnsUpdate st d).1.dns_up = true → (dnsUpdate st d).1.dns_fail_count = 0) ∧
    (dnsUpdate st d).1.dns_fail_count ≤ 1 ∧ (dnsUpdate st d).2 = [] := by
  simp only [dnsUpdate]
  split_ifs <;> simp_all
  omega

lemma latencyDnsUpdate_none (st : MState) (d : Bool) (now : Int)
    (hp : st.ping_time = none) :
    latencyDnsUpdate st d now = Except.error "NameError: ping_time" := by
  simp [latencyDnsUpdate, hp]

lemma latencyDnsUpdate_high (st : MState) (d : Bool) (now : Int) (pt : Rat)
    (hp : st.ping_time = some pt) (h1000 : (1000 : Rat) < pt) :
    latencyDnsUpdate st d now =
      if TRIGGER ≤ st.high_latency_count + 1 ∧ st.notified = false then
        Except.ok ({ st with
                      high_latency_count := st.high_latency_count + 1
                      notified := true },
                   [Event.latencyTriggered])
      else
        Except.ok ({ st with high_latency_count := st.high_latency_count + 1 }, []) := by
  simp only [latencyDnsUpdate, hp]
  rw [if_pos h1000]
  simp only [Nat.succ_ne_zero, if_false, reduceIte]

lemma latencyDnsUpdate_crash (st : MState) (d : Bool) (now : Int) (pt : Rat)
    (hp : st.ping_time = some pt) (h1000 : ¬ (1000 : Rat) < pt)
    (hc : TRIGGER ≤ st.high_latency_count) :
    latencyDnsUpdate st d now = Except.error "TypeError: tz applied to str" := by
  simp [latencyDnsUpdate, hp, h1000, hc]

lemma latencyDnsUpdate_low (st : MState) (d : Bool) (now : Int) (pt : Rat)
    (hp : st.ping_time = some pt) (h1000 : ¬ (1000 : Rat) < pt)
    (hc : st.high_latency_count < TRIGGER) :
    latencyDnsUpdate st d now =
      if st.internet_up = true then
        Except.ok (dnsUpdate { st with high_latency_count := 0, high_latency_time := now } d)
      else
        Except.ok ({ st with high_latency_count := 0, high_latency_time := now }, []) := by
  simp only [latencyDnsUpdate, hp]
  rw [if_neg h1000, if_neg (Nat.not_le.mpr hc)]

lemma latencyDnsUpdate_ok_spec (st : MState) (d : Bool) (now : Int) (st4 : MState)
    (e3 : List Event) (h : latencyDnsUpdate st d now = Except.ok (st4, e3)) :
    st4.ping_fail_count = st.ping_fail_count ∧ st4.ping_fail_time = st.ping_fail_time ∧
    st4.ping_time = st.ping_time ∧ st4.loss_percentage_count = st.loss_percentage_count ∧
    st4.loss_percentage_time = st.loss_percentage_time ∧ st4.internet_up = st.internet_up ∧
    (∀ e ∈ e3, e = Event.latencyTriggered ∨ e = Event.dnsTriggered ∨ e = Event.dnsRecovered) := by
  rcases hp : st.ping_time with _ | pt
  · rw [latencyDnsUpdate_none st d now hp] at h
    exact absurd h (by simp)
  · by_cases h1 : (1000 : Rat) < pt
    · rw [latencyDnsUpdate_high st d now pt hp h1] at h
      split_ifs at h <;>
        (simp only [Except.ok.injEq, Prod.mk.injEq] at h
         obtain ⟨rfl, rfl⟩ := h
         simp [hp])
    · by_cases h2 : TRIGGER ≤ st.high_latency_count
      · rw [latencyDnsUpdate_crash st d now pt hp h1 h2] at h
        exact absurd h (by simp)
      · rw [latencyDnsUpdate_low st d now pt hp h1 (Nat.not_le.mp h2)] at h
        split_ifs at h with hup
        · simp only [Except.ok.injEq] at h
          have hs : st4 =
              (dnsUpdate { st with high_latency_count := 0, high_latency_time := now } d).1 := by
            rw [h]
          have he : e3 =
              (dnsUpdate { st with high_latency_count := 0, high_latency_time := now } d).2 := by
            rw [h]
          obtain ⟨f1, f2, f3, f4, f5, f6, f7, f8, f9, f10⟩ :=
            dnsUpdate_spec { st with high_latency_count := 0, high_latency_time := now } d
          subst hs he
          refine ⟨by simpa using f2, by simpa using f3, by simpa [hp] using f6,
            by simpa using f8, by simpa using f9, by simpa using f1, ?_⟩
          intro e he
          rcases f10 e he with h' | h' <;> simp [h']
        · simp only [Except.ok.injEq, Prod.mk.injEq] at h
          obtain ⟨rfl, rfl⟩ := h
          simp [hp]

/-! ### Step and run inversion lemmas -/

lemma step_ok_probe_inv (st : MState) (avg : Option Rat) (loss : Option Nat) (d : Bool)
    (t : Int) (st' : MState) (evs : List Event)
    (h : step st ⟨ProbeResult.ok avg loss, d, t⟩ = Except.ok (st', evs)) :
    ∃ st2 e1 st4 e3,
      lossUpdate { st with ping_time := some (parsedPing avg) } loss t =
          Except.ok (st2, e1) ∧
      latencyDnsUpdate (reachRecoverUpdate st2 t).1 d t = Except.ok (st4, e3) ∧
      st' = st4 ∧ evs = e1 ++ (reachRecoverUpdate st2 t).2 ++ e3 := by
  simp only [step] at h
  rcases hLU : lossUpdate { st with ping_time := some (parsedPing avg) } loss t
    with e | ⟨st2, e1⟩
  · rw [hLU] at h
    simp at h
  · rw [hLU] at h
    simp only [] at h
    rcases hLD : latencyDnsUpdate (reachRecoverUpdate st2 t).1 d t with e | ⟨st4, e3⟩
    · rw [hLD] at h
      simp at h
    · rw [hLD] at h
      simp only [Except.ok.injEq, Prod.mk.injEq] at h
      obtain ⟨rfl, rfl⟩ := h
      exact ⟨st2, e1, st4, e3, rfl, hLD, rfl, by simp⟩

lemma step_fail_inv (st : MState) (d : Bool) (t : Int) (st' : MState) (evs : List Event)
    (h : step st ⟨ProbeResult.fail, d, t⟩ = Except.ok (st', evs)) :
    ∃ st2 e2, latencyDnsUpdate (reachFailUpdate st t).1 d t = Except.ok (st2, e2) ∧
      st' = st2 ∧ evs = (reachFailUpdate st t).2 ++ e2 := by
  simp only [step] at h
  rcases hLD : latencyDnsUpdate (reachFailUpdate st t).1 d t with e | ⟨st2, e2⟩
  · rw [hLD] at h
    simp at h
  · rw [hLD] at h
    simp only [Except.ok.injEq, Prod.mk.injEq] at h
    obtain ⟨rfl, rfl⟩ := h
    exact ⟨st2, e2, rfl, rfl, rfl⟩

lemma runE_cons_inv (st : MState) (s : Sample) (rest : List Sample) (st' : MState)
    (evss : List (List Event)) (h : runE st (s :: rest) = Except.ok (st', evss)) :
    ∃ stm evs evss1, step st s = Except.ok (stm, evs) ∧
      runE stm rest = Except.ok (st', evss1) ∧ evss = evs :: evss1 := by
  simp only [runE] at h
  rcases hs : step st s with e | ⟨stm, evs⟩
  · rw [hs] at h
    simp at h
  · rw [hs] at h
    simp only [] at h
    rcases hr : runE stm rest with e | ⟨stf, evss1⟩
    · rw [hr] at h
      simp at h
    · rw [hr] at h
      simp only [Except.ok.injEq, Prod.mk.injEq] at h
      obtain ⟨rfl, rfl⟩ := h
      exact ⟨stm, evs, evss1, rfl, hr, rfl⟩

/-! ### Claims C3 and C7: latency evaluation -/

/-- **C3 (amended).** A cycle whose latency cannot be parsed does not
leave the latency counter unchanged: the parse failure sets `ping_time`
to the sentinel `99999`, which is above the 1000 ms threshold, so every
such cycle (whatever the state) increments `high_latency_count` by one —
`trigger_threshold` consecutive unparseable cycles alone fire the
latency trigger. -/
theorem unparsed_latency_increments_counter (st : MState) (lp : Option Nat) (d : Bool)
    (t : Int) (st' : MState) (evs : List Event)
    (h : step st ⟨ProbeResult.ok none lp, d, t⟩ = Except.ok (st', evs)) :
    st'.high_latency_count = st.high_latency_count + 1 := by
  obtain ⟨st2, e1, st4, e3, hLU, hLD, rfl, -⟩ := step_ok_probe_inv st none lp d t st' evs h
  obtain ⟨f1, f2, f3, f4, f5, f6, f7, f8⟩ := lossUpdate_spec _ lp t st2 e1 hLU
  rw [reachRecoverUpdate_spec st2 t] at hLD
  rw [latencyDnsUpdate_high _ d t 99999 (by simp [f7, parsedPing]) (by norm_num)] at hLD
  split_ifs at hLD <;>
    · simp only [Except.ok.injEq, Prod.mk.injEq] at hLD
      obtain ⟨rfl, rfl⟩ := hLD
      simp [f6]

/-- **C7 (amended).** In a cycle whose probe fails (reachability Down),
the DNS state is indeed untouched, but the latency signal *is*
evaluated against the stale `ping_time` of the last successful probe:
if that stale value is above 1000 ms the latency counter increments,
otherwise it is reset to 0 — it is not left unchanged. -/
theorem down_cycle_latency_and_dns_effects (st : MState) (d : Bool) (t : Int)
    (pt : Rat) (st' : MState) (evs : List Event)
    (hpt : st.ping_time = some pt)
    (h : step st ⟨ProbeResult.fail, d, t⟩ = Except.ok (st', evs)) :
    st'.dns_up = st.dns_up ∧ st'.dns_fail_count = st.dns_fail_count ∧
    st'.high_latency_count = (if (1000 : Rat) < pt then st.high_latency_count + 1 else 0) := by
  obtain ⟨st2, e2, hLD, rfl, -⟩ := step_fail_inv st d t st' evs h
  obtain ⟨g1, g2, g3, g4, g5, g6, g7, g8, g9⟩ := reachFailUpdate_spec st t
  by_cases hgt : (1000 : Rat) < pt
  · rw [latencyDnsUpdate_high _ d t pt (by rw [g6, hpt]) hgt] at hLD
    split_ifs at hLD <;>
      · simp only [Except.ok.injEq, Prod.mk.injEq] at hLD
        obtain ⟨rfl, rfl⟩ := hLD
        exact ⟨by simp [g3], by simp [g4], by simp [g5, hgt]⟩
  · by_cases hcr : TRIGGER ≤ st.high_latency_count
    · rw [latencyDnsUpdate_crash _ d t pt (by rw [g6, hpt]) hgt (by rw [g5]; exact hcr)] at hLD
      exact absurd hLD (by simp)
    · rw [latencyDnsUpdate_low _ d t pt (by rw [g6, hpt]) hgt
        (by rw [g5]; exact Nat.not_le.mp hcr)] at hLD
      rw [if_neg (by simp [g1])] at hLD
      simp only [Except.ok.injEq, Prod.mk.injEq] at hLD
      obtain ⟨rfl, rfl⟩ := hLD
      exact ⟨by simp [g3], by simp [g4], by simp [hgt]⟩

/-! ### Claim C5: recovery emission -/

/-- **C5 (amended).** On a successful-probe cycle with parsed latency
and loss: the reachability `Recovered` event is emitted iff the failure
counter had reached at least `TRIGGER` (and the counter is then reset,
so repeated good samples emit nothing further), but the packet-loss
`Recovered` event is emitted iff the loss counter equals `TRIGGER`
*exactly* and the parsed loss is 0 — a run longer than `TRIGGER` bad
loss samples recovers silently. -/
theorem recovery_emission_characterization (st : MState) (l : Rat) (lp : Nat) (d : Bool)
    (t : Int) (st' : MState) (evs : List Event)
    (h : step st ⟨ProbeResult.ok (some l) (some lp), d, t⟩ = Except.ok (st', evs)) :
    (Event.reachRecovered (t - st.ping_fail_time) ∈ evs ↔ TRIGGER ≤ st.ping_fail_count) ∧
    st'.ping_fail_count = 0 ∧
    (evs.any isLossRecovered = true ↔ lp = 0 ∧ st.loss_percentage_count = TRIGGER) := by
  obtain ⟨st2, e1, st4, e3, hLU, hLD, rfl, rfl⟩ :=
    step_ok_probe_inv st (some l) (some lp) d t st' evs h
  obtain ⟨f1, f2, f3, f4, f5, f6, f7, f8⟩ := lossUpdate_spec _ (some lp) t st2 e1 hLU
  obtain ⟨d1, d2, d3, d4, d5, d6, d7⟩ := latencyDnsUpdate_ok_spec _ d t _ _ hLD
  have hpfc : st2.ping_fail_count = st.ping_fail_count := by simpa using f4
  have hpft : st2.ping_fail_time = st.ping_fail_time := by simpa using f5
  have hmid : ∀ x : Event, x ∈ (reachRecoverUpdate st2 t).2 ↔
      TRIGGER ≤ st2.ping_fail_count ∧ x = Event.reachRecovered (t - st2.ping_fail_time) := by
    intro x
    rw [reachRecoverUpdate_spec st2 t]
    split_ifs with hc <;> simp [hc]
  refine ⟨⟨fun hm => ?_, fun hT => ?_⟩, ?_, ?_⟩
  · rcases List.mem_append.mp hm with hm1 | hm3
    · rcases List.mem_append.mp hm1 with hm1 | hm2
      · rcases f8 _ hm1 with ⟨dd, hdd⟩ | hdd <;> simp at hdd
      · exact hpfc ▸ ((hmid _).mp hm2).1
    · rcases d7 _ hm3 with h' | h' | h' <;> simp at h'
  · refine List.mem_append.mpr (Or.inl (List.mem_append.mpr
      (Or.inr ((hmid _).mpr ⟨?_, ?_⟩))))
    · rw [hpfc]; exact hT
    · rw [hpft]
  · have hd := d1
    rw [reachRecoverUpdate_spec st2 t] at hd
    simpa using hd
  · have hLiff := lossUpdate_recovered_iff _ lp t st2 e1 hLU
    have hmidb : (reachRecoverUpdate st2 t).2.any isLossRecovered = false := by
      rw [reachRecoverUpdate_spec st2 t]
      split_ifs <;> simp [isLossRecovered]
    have he3 : e3.any isLossRecovered = false := by
      cases he : e3.any isLossRecovered
      · rfl
      · exfalso
        obtain ⟨e, hmem, hp⟩ := List.any_eq_true.mp he
        rcases d7 e hmem with h' | h' | h' <;> simp [h', isLossRecovered] at hp
    simp only [List.any_append, hmidb, he3, Bool.or_false]
    simpa using hLiff

/-! ### Claim C6: the DNS alert is unreachable -/

lemma latencyDnsUpdate_dns_inv (st : MState) (d : Bool) (now : Int) (st4 : MState)
    (e3 : List Event) (h : latencyDnsUpdate st d now = Except.ok (st4, e3))
    (h1 : st.dns_up = true → st.dns_fail_count = 0) (h2 : st.dns_fail_count ≤ 1) :
    (st4.dns_up = true → st4.dns_fail_count = 0) ∧ st4.dns_fail_count ≤ 1 ∧
    (∀ e ∈ e3, e ≠ Event.dnsTriggered ∧ e ≠ Event.dnsRecovered) := by
  rcases hp : st.ping_time with _ | pt
  · rw [latencyDnsUpdate_none st d now hp] at h
    exact absurd h (by simp)
  · by_cases hgt : (1000 : Rat) < pt
    · rw [latencyDnsUpdate_high st d now pt hp hgt] at h
      split_ifs at h <;>
        · simp only [Except.ok.injEq, Prod.mk.injEq] at h
          obtain ⟨rfl, rfl⟩ := h
          exact ⟨by simpa using h1, by simpa using h2, by simp⟩
    · by_cases hcr : TRIGGER ≤ st.high_latency_count
      · rw [latencyDnsUpdate_crash st d now pt hp hgt hcr] at h
        exact absurd h (by simp)
      · rw [latencyDnsUpdate_low st d now pt hp hgt (Nat.not_le.mp hcr)] at h
        split_ifs at h with hup
        · simp only [Except.ok.injEq] at h
          obtain ⟨g1, g2, g3⟩ := dnsUpdate_inv
            { st with high_latency_count := 0, high_latency_time := now } d
            (by simpa using h1) (by simpa using h2)
          have hs : st4 =
              (dnsUpdate { st with high_latency_count := 0, high_latency_time := now } d).1 := by
            rw [h]
          have he : e3 =
              (dnsUpdate { st with high_latency_count := 0, high_latency_time := now } d).2 := by
            rw [h]
          subst hs he
          exact ⟨g1, g2, by simp [g3]⟩
        · simp only [Except.ok.injEq, Prod.mk.injEq] at h
          obtain ⟨rfl, rfl⟩ := h
          exact ⟨by simpa using h1, by simpa using h2, by simp⟩

lemma step_dns_inv (st : MState) (s : Sample) (st' : MState) (evs : List Event)
    (h : step st s = Except.ok (st', evs))
    (h1 : st.dns_up = true → st.dns_fail_count = 0) (h2 : st.dns_fail_count ≤ 1) :
    (st'.dns_up = true → st'.dns_fail_count = 0) ∧ st'.dns_fail_count ≤ 1 ∧
    (∀ e ∈ evs, e ≠ Event.dnsTriggered ∧ e ≠ Event.dnsRecovered) := by
  obtain ⟨probe, d, t⟩ := s
  rcases probe with _ | ⟨avg, loss⟩
  · obtain ⟨st2, e2, hLD, rfl, rfl⟩ := step_fail_inv st d t st' evs h
    obtain ⟨g1, g2, g3, g4, g5, g6, g7, g8, g9⟩ := reachFailUpdate_spec st t
    obtain ⟨k1, k2, k3⟩ := latencyDnsUpdate_dns_inv _ d t _ _ hLD
      (by rw [g3, g4]; exact h1) (by rw [g4]; exact h2)
    refine ⟨k1, k2, fun e he => ?_⟩
    rcases List.mem_append.mp he with he1 | he2
    · rcases g9 with hg | hg <;> rw [hg] at he1 <;> simp at he1
      simp [he1]
    · exact k3 e he2
  · obtain ⟨st2, e1, st4, e3, hLU, hLD, rfl, rfl⟩ :=
      step_ok_probe_inv st avg loss d t st' evs h
    obtain ⟨f1, f2, f3, f4, f5, f6, f7, f8⟩ := lossUpdate_spec _ loss t st2 e1 hLU
    have hd2 : st2.dns_up = st.dns_up := by simpa using f2
    have hd3 : st2.dns_fail_count = st.dns_fail_count := by simpa using f3
    have hRR := reachRecoverUpdate_spec st2 t
    obtain ⟨k1, k2, k3⟩ := latencyDnsUpdate_dns_inv _ d t _ _ hLD
      (by rw [hRR]; simpa [hd2, hd3] using h1) (by rw [hRR]; simpa [hd3] using h2)
    refine ⟨k1, k2, fun e he => ?_⟩
    rcases List.mem_append.mp he with he1 | he3
    · rcases List.mem_append.mp he1 with he1 | he2
      · rcases f8 e he1 with ⟨dd, hdd⟩ | hdd <;> simp [hdd]
      · have hm : ∀ x : Event, x ∈ (reachRecoverUpdate st2 t).2 →
            x = Event.reachRecovered (t - st2.ping_fail_time) := by
          intro x hx
          rw [hRR] at hx
          simp at hx
          exact hx.2
        rw [hm e he2]
        simp
    · exact k3 e he3

lemma runE_dns_inv (samples : List Sample) :
    ∀ st st' evss, runE st samples = Except.ok (st', evss) →
    (st.dns_up = true → st.dns_fail_count = 0) → st.dns_fail_count ≤ 1 →
    (st'.dns_up = true → st'.dns_fail_count = 0) ∧ st'.dns_fail_count ≤ 1 ∧
    (∀ evs ∈ evss, ∀ e ∈ evs, e ≠ Event.dnsTriggered ∧ e ≠ Event.dnsRecovered) := by
  induction samples with
  | nil =>
    intro st st' evss h h1 h2
    simp only [runE, Except.ok.injEq, Prod.mk.injEq] at h
    obtain ⟨rfl, rfl⟩ := h
    exact ⟨h1, h2, by simp⟩
  | cons s rest ih =>
    intro st st' evss h h1 h2
    obtain ⟨stm, evs, evss1, hs, hr, rfl⟩ := runE_cons_inv st s rest st' evss h
    obtain ⟨g1, g2, g3⟩ := step_dns_inv st s stm evs hs h1 h2
    obtain ⟨k1, k2, k3⟩ := ih stm st' evss1 hr g1 g2
    refine ⟨k1, k2, fun evs2 hm => ?_⟩
    rcases List.mem_cons.mp hm with rfl | hm2
    · exact g3
    · exact k3 evs2 hm2

/-- **C6 (code bug).** The DNS failure alert can never fire: starting
from the initial state, along any sample sequence the DNS failure
counter increments only on a falling edge of `dns_up` and is reset on
the rising edge, so it never exceeds 1, and the `>= 3` guards mean no
`dnsTriggered` or `dnsRecovered` event is ever emitted — three (or any
number of) consecutive evaluated DNS failures produce no notification,
contradicting the claimed fire-on-3rd-consecutive-failure behaviour. -/
theorem dns_alert_never_fires (t0 : Int) (samples : List Sample) (st' : MState)
    (evss : List (List Event)) (h : runE (initState t0) samples = Except.ok (st', evss)) :
    st'.dns_fail_count ≤ 1 ∧
    Event.dnsTriggered ∉ evss.flatten ∧ Event.dnsRecovered ∉ evss.flatten := by
  obtain ⟨k1, k2, k3⟩ := runE_dns_inv samples (initState t0) st' evss h
    (by intro _; rfl) (by simp [initState])
  refine ⟨k2, fun hm => ?_, fun hm => ?_⟩
  · obtain ⟨l, hl, hel⟩ := List.mem_flatten.mp hm
    exact (k3 l hl _ hel).1 rfl
  · obtain ⟨l, hl, hel⟩ := List.mem_flatten.mp hm
    exact (k3 l hl _ hel).2 rfl

/-! ### Claim C2: the shared notified flag, reachability in isolation -/

lemma runE_nil (st : MState) : runE st [] = Except.ok (st, []) := rfl

lemma runE_cons_ok {st stm st' : MState} {s : Sample} {rest : List Sample}
    {evs : List Event} {evss : List (List Event)}
    (hs : step st s = Except.ok (stm, evs)) (hr : runE stm rest = Except.ok (st', evss)) :
    runE st (s :: rest) = Except.ok (st', evs :: evss) := by
  simp [runE, hs, hr]

lemma reachStepGood (l : Rat) (hl : l ≤ 1000) (st : MState) (k : Nat) (t : Int)
    (hInv : ReachInv l st k) :
    ∃ st', (step st (goodS l t) = Except.ok (st',
      if TRIGGER ≤ k then [Event.reachRecovered (t - st.ping_fail_time)] else [])) ∧
    ReachInv l st' 0 := by
  have hnl : ¬ (1000 : Rat) < l := not_lt.mpr hl
  obtain ⟨iu, lc, lt, du, dc, pc, hc, pt, ht, nf, pg⟩ := st
  obtain ⟨h1, h2, h3, h4, h5, h6, h7⟩ := hInv
  simp only [MState.ping_time] at h1
  simp only [MState.loss_percentage_count] at h2
  simp only [MState.high_latency_count] at h3
  simp only [MState.dns_up] at h4
  simp only [MState.dns_fail_count] at h5
  simp only [MState.ping_fail_count] at h6
  simp only [MState.notified] at h7
  by_cases hk : TRIGGER ≤ k
  all_goals simp only [TRIGGER] at hk
  all_goals subst h1 h2 h3 h4 h5 h6 h7
  · refine ⟨⟨true, 0, some t, true, 0, 0, 0, t, t, false, some l⟩, ?_, ?_⟩
    · simp [step, goodS, lossUpdate, reachRecoverUpdate, latencyDnsUpdate, dnsUpdate,
        parsedPing, hk, hnl, TRIGGER]
    · simp [ReachInv, TRIGGER]
  · refine ⟨⟨true, 0, some t, true, 0, 0, 0, t, t, false, some l⟩, ?_, ?_⟩
    · simp [step, goodS, lossUpdate, reachRecoverUpdate, latencyDnsUpdate, dnsUpdate,
        parsedPing, hk, hnl, TRIGGER]
    · simp [ReachInv, TRIGGER]

lemma reachStepDown (l : Rat) (hl : l ≤ 1000) (st : MState) (k : Nat) (t : Int)
    (hInv : ReachInv l st k) :
    ∃ st' evs, step st (downS t) = Except.ok (st', evs) ∧ ReachInv l st' (k + 1) := by
  have hnl : ¬ (1000 : Rat) < l := not_lt.mpr hl
  obtain ⟨iu, lc, lt, du, dc, pc, hc, pt, ht, nf, pg⟩ := st
  obtain ⟨h1, h2, h3, h4, h5, h6, h7⟩ := hInv
  simp only [MState.ping_time] at h1
  simp only [MState.loss_percentage_count] at h2
  simp only [MState.high_latency_count] at h3
  simp only [MState.dns_up] at h4
  simp only [MState.dns_fail_count] at h5
  simp only [MState.ping_fail_count] at h6
  simp only [MState.notified] at h7
  by_cases hk0 : k = 0
  all_goals by_cases hk : TRIGGER ≤ k + 1
  all_goals simp only [TRIGGER] at hk
  all_goals subst h1 h2 h3 h4 h5 h6 h7
  · subst hk0
    exact absurd hk (by norm_num)
  · subst hk0
    refine ⟨⟨false, 0, lt, true, 0, 1, 0, t, t, false, some l⟩, [], ?_, ?_⟩
    · simp [step, downS, reachFailUpdate, latencyDnsUpdate, dnsUpdate, hnl, hk, TRIGGER]
    · simp [ReachInv, TRIGGER]
  · by_cases hk3 : TRIGGER ≤ pc
    all_goals simp only [TRIGGER] at hk3
    · refine ⟨⟨false, 0, lt, true, 0, pc + 1, 0, pt, t, true, some l⟩, [], ?_, ?_⟩
      · simp [step, downS, reachFailUpdate, latencyDnsUpdate, dnsUpdate, hnl, hk0, hk,
          hk3, TRIGGER]
      · simp [ReachInv, hk, TRIGGER]
    · refine ⟨⟨false, 0, lt, true, 0, pc + 1, 0, pt, t, true, some l⟩,
        [Event.reachTriggered], ?_, ?_⟩
      · simp [step, downS, reachFailUpdate, latencyDnsUpdate, dnsUpdate, hnl, hk0, hk,
          hk3, TRIGGER]
      · simp [ReachInv, hk, TRIGGER]
  · refine ⟨⟨false, 0, lt, true, 0, pc + 1, 0, pt, t, decide (3 ≤ pc), some l⟩, [], ?_, ?_⟩
    · simp [step, downS, reachFailUpdate, latencyDnsUpdate, dnsUpdate, hnl, hk0, hk, TRIGGER]
    · have hc3 : ¬ 3 ≤ pc := fun hc => hk (Nat.le_succ_of_le hc)
      simp [ReachInv, hk, hc3, TRIGGER]

lemma reachRun (l : Rat) (hl : l ≤ 1000) :
    ∀ (xs : List (Int × Bool)) (st : MState) (k : Nat), ReachInv l st k →
    ∃ st' evss, runE st (reachSeq l xs) = Except.ok (st', evss) ∧
      ReachInv l st' (xs.foldl (fun a p => if p.2 then a + 1 else 0) k) := by
  intro xs
  induction xs with
  | nil =>
    intro st k hInv
    exact ⟨st, [], by simp [reachSeq, runE], hInv⟩
  | cons p rest ih =>
    intro st k hInv
    rcases p with ⟨tp, b⟩
    cases b
    · obtain ⟨st1, hstep, hInv1⟩ := reachStepGood l hl st k tp hInv
      obtain ⟨st', evss, hrun, hInvF⟩ := ih st1 0 hInv1
      refine ⟨st', (if TRIGGER ≤ k then
          [Event.reachRecovered (tp - st.ping_fail_time)] else []) :: evss, ?_, ?_⟩
      · simp only [reachSeq, List.map_cons]
        exact runE_cons_ok hstep (by simpa [reachSeq] using hrun)
      · simpa using hInvF
    · obtain ⟨st1, evs, hstep, hInv1⟩ := reachStepDown l hl st k tp hInv
      obtain ⟨st', evss, hrun, hInvF⟩ := ih st1 (k + 1) hInv1
      refine ⟨st', evs :: evss, ?_, ?_⟩
      · simp only [reachSeq, List.map_cons]
        exact runE_cons_ok hstep (by simpa [reachSeq] using hrun)
      · simpa using hInvF

/-- **C2 (amended).** For reachability-only sequences (one leading good
cycle, then arbitrary good/failing cycles with benign latency, loss and
DNS), the shared `notified` flag after the run equals whether the
trailing run of consecutive failing samples reached `TRIGGER`, and
`ping_fail_count` is exactly that trailing run length. -/
theorem notified_iff_trailing_run (l : Rat) (hl : l ≤ 1000) (t0 t1 : Int)
    (xs : List (Int × Bool)) :
    (runE (initState t0) (goodS l t1 :: reachSeq l xs)).map
        (fun p => (p.1.notified, p.1.ping_fail_count)) =
      Except.ok (decide (TRIGGER ≤ trailRun xs), trailRun xs) := by
  have hnl : ¬ (1000 : Rat) < l := not_lt.mpr hl
  have hInit : step (initState t0) (goodS l t1) =
      Except.ok (⟨true, 0, some t1, true, 0, 0, 0, t1, t1, false, some l⟩, []) := by
    simp [step, initState, goodS, lossUpdate, reachRecoverUpdate, latencyDnsUpdate,
      dnsUpdate, parsedPing, hnl, TRIGGER]
  have hInv1 : ReachInv l ⟨true, 0, some t1, true, 0, 0, 0, t1, t1, false, some l⟩ 0 := by
    simp [ReachInv, TRIGGER]
  obtain ⟨st', evss, hrun, hInvF⟩ := reachRun l hl xs _ 0 hInv1
  rw [runE_cons_ok hInit hrun]
  obtain ⟨i1, i2, i3, i4, i5, i6, i7⟩ := hInvF
  simp [Except.map, i6, i7, trailRun]

/-! ### Claim C1: the six-sample reachability trace -/

/-- **C1 (confirmed).** With `TRIGGER = 3`, reachability samples
`[Up, Down, Down, Down, Down, Up]` (the Up samples benign: parsed
latency ≤ 1000 ms, 0 % loss, DNS resolving) at arbitrary cycle times:
the reachability `Triggered` event fires in cycle 4 — the 3rd
consecutive Down — and in no other cycle, and exactly one `Recovered`
event fires on the final Up, with duration `t6 - t2`, the elapsed time
since the 1st Down. -/
theorem reachability_trace_triggers_on_third_down (t0 t1 t2 t3 t4 t5 t6 : Int)
    (l1 l6 : Rat) (hq1 : l1 ≤ 1000) (hq6 : l6 ≤ 1000) :
    (runE (initState t0)
        [goodS l1 t1, downS t2, downS t3, downS t4, downS t5, goodS l6 t6]).map
        (fun p => p.2) =
      Except.ok [[], [], [], [Event.reachTriggered], [],
        [Event.reachRecovered (t6 - t2)]] := by
  have hnl1 : ¬ (1000 : Rat) < l1 := not_lt.mpr hq1
  have hnl6 : ¬ (1000 : Rat) < l6 := not_lt.mpr hq6
  have e1 : step (initState t0) (goodS l1 t1) =
      Except.ok (⟨true, 0, some t1, true, 0, 0, 0, t1, t1, false, some l1⟩, []) := by
    simp [step, initState, goodS, lossUpdate, reachRecoverUpdate, latencyDnsUpdate,
      dnsUpdate, parsedPing, hnl1, TRIGGER]
  have e2 : step ⟨true, 0, some t1, true, 0, 0, 0, t1, t1, false, some l1⟩ (downS t2) =
      Except.ok (⟨false, 0, some t1, true, 0, 1, 0, t2, t2, false, some l1⟩, []) := by
    simp [step, downS, reachFailUpdate, latencyDnsUpdate, dnsUpdate, hnl1, TRIGGER]
  have e3 : step ⟨false, 0, some t1, true, 0, 1, 0, t2, t2, false, some l1⟩ (downS t3) =
      Except.ok (⟨false, 0, some t1, true, 0, 2, 0, t2, t3, false, some l1⟩, []) := by
    simp [step, downS, reachFailUpdate, latencyDnsUpdate, dnsUpdate, hnl1, TRIGGER]
  have e4 : step ⟨false, 0, some t1, true, 0, 2, 0, t2, t3, false, some l1⟩ (downS t4) =
      Except.ok (⟨false, 0, some t1, true, 0, 3, 0, t2, t4, true, some l1⟩,
        [Event.reachTriggered]) := by
    simp [step, downS, reachFailUpdate, latencyDnsUpdate, dnsUpdate, hnl1, TRIGGER]
  have e5 : step ⟨false, 0, some t1, true, 0, 3, 0, t2, t4, true, some l1⟩ (downS t5) =
      Except.ok (⟨false, 0, some t1, true, 0, 4, 0, t2, t5, true, some l1⟩, []) := by
    simp [step, downS, reachFailUpdate, latencyDnsUpdate, dnsUpdate, hnl1, TRIGGER]
  have e6 : step ⟨false, 0, some t1, true, 0, 4, 0, t2, t5, true, some l1⟩ (goodS l6 t6) =
      Except.ok (⟨true, 0, some t6, true, 0, 0, 0, t6, t6, false, some l6⟩,
        [Event.reachRecovered (t6 - t2)]) := by
    simp [step, goodS, lossUpdate, reachRecoverUpdate, latencyDnsUpdate, dnsUpdate,
      parsedPing, hnl6, TRIGGER]
  rw [runE_cons_ok e1 (runE_cons_ok e2 (runE_cons_ok e3 (runE_cons_ok e4
    (runE_cons_ok e5 (runE_cons_ok e6 (runE_nil _))))))]
  rfl

/-! ### Witnesses -/

/-- Witness for `reachability_trace_triggers_on_third_down` at cycle
times 0..5 and latency 50 ms: the recovery duration is 4 seconds. -/
theorem reachability_trace_witness :
    (runE (initState 0) [goodS 50 0, downS 1, downS 2, downS 3, downS 4, goodS 50 5]).map
        (fun p => p.2) =
      Except.ok [[], [], [], [Event.reachTriggered], [], [Event.reachRecovered 4]] := by
  have h := reachability_trace_triggers_on_third_down 0 0 1 2 3 4 5 50 50
    (by norm_num) (by norm_num)
  simpa using h

/-- Witness for `notified_iff_trailing_run`: a good cycle followed by
three failing cycles leaves `notified = true` and `ping_fail_count = 3`. -/
theorem notified_iff_trailing_run_witness :
    (runE (initState 0) (goodS 50 0 :: reachSeq 50 [(1, true), (2, true), (3, true)])).map
        (fun p => (p.1.notified, p.1.ping_fail_count)) = Except.ok (true, 3) := by
  have h := notified_iff_trailing_run 50 (by norm_num) 0 0 [(1, true), (2, true), (3, true)]
  simpa [trailRun, TRIGGER] using h

/-- Witness for `unparsed_latency_increments_counter`: one unparseable
latency cycle from the initial state moves the counter from 0 to 1. -/
theorem unparsed_latency_witness :
    (⟨true, 0, some 0, true, 0, 0, 1, 0, 0, false, some 99999⟩ : MState).high_latency_count =
      (initState 0).high_latency_count + 1 :=
  unparsed_latency_increments_counter (initState 0) (some 0) true 0 _ [] rfl

/-- Witness for `recovery_emission_characterization`: a 0 %-loss sample
against a state with `ping_fail_count = 4` and `loss_percentage_count = 3`
emits exactly the loss recovery and the reachability recovery. -/
theorem recovery_emission_witness :
    (Event.reachRecovered (10 - (-2 : Int)) ∈
        [Event.lossRecovered 10, Event.reachRecovered 12] ↔ TRIGGER ≤ 4) ∧
    (⟨true, 0, some 10, true, 0, 0, 0, 10, 10, false, some 50⟩ : MState).ping_fail_count = 0 ∧
    ([Event.lossRecovered 10, Event.reachRecovered 12].any isLossRecovered = true ↔
      0 = 0 ∧ 3 = TRIGGER) :=
  recovery_emission_characterization ⟨true, 3, some 0, true, 0, 4, 0, -2, 0, true, some 50⟩
    50 0 true 10 _ _ rfl

/-- Witness for `dns_alert_never_fires`: three consecutive cycles with
failing DNS leave the counter at 1 and emit no DNS events at all. -/
theorem dns_alert_never_fires_witness :
    (⟨true, 0, some 2, false, 1, 0, 0, 2, 2, false, some 50⟩ : MState).dns_fail_count ≤ 1 ∧
    Event.dnsTriggered ∉ ([[], [], []] : List (List Event)).flatten ∧
    Event.dnsRecovered ∉ ([[], [], []] : List (List Event)).flatten :=
  dns_alert_never_fires 0 [dnsFailS 0, dnsFailS 1, dnsFailS 2] _ _ rfl

/-- Witness for `down_cycle_latency_and_dns_effects`: a failing probe
after a 2000 ms-latency cycle leaves DNS untouched and moves the
latency counter from 1 to 2. -/
theorem down_cycle_effects_witness :
    (⟨false, 0, some 0, true, 0, 1, 2, 1, 0, false, some 2000⟩ : MState).dns_up =
      (⟨true, 0, some 0, true, 0, 0, 1, 0, 0, false, some 2000⟩ : MState).dns_up ∧
    (⟨false, 0, some 0, true, 0, 1, 2, 1, 0, false, some 2000⟩ : MState).dns_fail_count =
      (⟨true, 0, some 0, true, 0, 0, 1, 0, 0, false, some 2000⟩ : MState).dns_fail_count ∧
    (⟨false, 0, some 0, true, 0, 1, 2, 1, 0, false, some 2000⟩ : MState).high_latency_count =
      (if (1000 : Rat) < 2000 then
        (⟨true, 0, some 0, true, 0, 0, 1, 0, 0, false, some 2000⟩ : MState).high_latency_count + 1
      else 0) :=
  down_cycle_latency_and_dns_effects ⟨true, 0, some 0, true, 0, 0, 1, 0, 0, false, some 2000⟩
    true 1 2000 _ [] rfl rfl

end InternetMonitor
